import Mathlib

/-!
Shallow embedding of `src/main.rs` of the gemini-mcp-server repository.

The dispatcher state (`AppState`, main.rs lines 42-61) holds a FIFO queue of
`ToolCall`s, a correlation table `output_map` from UUIDs to unbounded mpsc
senders, and a `watch` notifier pair.  We model:

* UUIDs as `Nat`;
* the `VecDeque<ToolCall>` as a `List ToolCall` (front = head);
* the `HashMap<Uuid, UnboundedSender<..>>` as an association list
  `List (Nat × List String)`, where the `List String` is the buffer of values
  sent into the channel and not yet received (the worker only ever sends `Ok`
  strings, main.rs line 247, so the buffer elements are plain strings);
* the `watch` channel as a version counter `trigger_count` (each
  `trigger.send(())` bumps it, waking all waiters).

Each operation of the source that runs under one `state.lock().await` scope
becomes one Lean function on `AppState`: the lock makes the whole scope a
single atomic transition, so a function per critical section is the faithful
atomicity granularity.

In Rust, the `UnboundedSender` for an id is owned solely by the map entry, so
`rx.recv()` returning `None` (channel closed, main.rs line 123) happens exactly
when the map entry for that id has been dropped; the model reflects this by
treating "entry absent" as "channel closed".
-/

/-- Embeds `ToolCall` of main.rs lines 30-34: the queued work item.  The single
`ToolArgumentValues` variant `RunCode { command }` is inlined as the command
string. -/
structure ToolCall where
  args : String
  id : Option Nat
  deriving Repr, DecidableEq

/-- Embeds `RunCommandResponse` of main.rs lines 36-40: the worker's result envelope. -/
structure RunCommandResponse where
  response : String
  id : Nat
  deriving Repr, DecidableEq

/-- Association-list lookup, modelling `HashMap::get`. -/
def mapLookup : List (Nat × List String) → Nat → Option (List String)
  | [], _ => none
  | (k, v) :: rest, i => if k = i then some v else mapLookup rest i

/-- Association-list insert, modelling `HashMap::insert` (the new binding
shadows any older one; ids are fresh v4 UUIDs so keys never collide). -/
def mapInsert (m : List (Nat × List String)) (k : Nat) (v : List String) :
    List (Nat × List String) :=
  (k, v) :: m

/-- Association-list removal, modelling `HashMap::remove`. -/
def mapRemove (m : List (Nat × List String)) (k : Nat) :
    List (Nat × List String) :=
  m.filter (fun p => p.1 ≠ k)

/-- Embeds `AppState` of main.rs lines 42-47: queue, correlation table, notifier. -/
structure AppState where
  process_queue : List ToolCall
  output_map : List (Nat × List String)
  trigger_count : Nat
  deriving Repr, DecidableEq

/-- Embeds `AppState::new()` (main.rs lines 52-60): empty queue, empty table. -/
def AppState.new : AppState :=
  { process_queue := [], output_map := [], trigger_count := 0 }

/-! ### The Enqueue-and-Await bridge, `run_roblox_tool` (main.rs 108-126) -/

/-- The first critical section of `run_roblox_tool` (main.rs lines 109-121):
under one lock acquisition it pushes the `ToolCall` to the queue tail,
inserts the fresh channel into `output_map` under the fresh id, and fires
the `watch` trigger.  The fresh id `Uuid::new_v4()` is a parameter. -/
def runRobloxToolStart (s : AppState) (args : String) (id : Nat) : AppState :=
  { process_queue := s.process_queue ++ [⟨args, some id⟩]
    output_map := mapInsert s.output_map id []
    trigger_count := s.trigger_count + 1 }

/-- The error kind of `Report::msg("Channel closed unexpectedly")`. -/
inductive BridgeError where
  | channelClosed
  deriving Repr, DecidableEq

/-- The completion of `run_roblox_tool` (main.rs lines 123-125), i.e. what
happens when `rx.recv().await` resolves:

* if the map entry for `id` is gone, every sender is dropped, so `recv`
  returns `None`: the `ok_or_else(..)?` returns the `ChannelClosed` error
  early, and line 124's removal is skipped;
* if the entry is present with a buffered value, `recv` yields it, line 124
  removes the entry under the lock, and the value is returned;
* if the entry is present with an empty buffer the call is still blocked:
  `none` (no completion yet). -/
def runRobloxToolFinish (s : AppState) (id : Nat) :
    Option (AppState × Except BridgeError String) :=
  match mapLookup s.output_map id with
  | none => some (s, Except.error BridgeError.channelClosed)
  | some [] => none
  | some (v :: _) =>
      some ({ s with output_map := mapRemove s.output_map id }, Except.ok v)

/-! ### Long-poll pickup, `request_handler` (main.rs 216-239) -/

/-- One pass of the long-poll loop body under the lock (main.rs lines
220-224): pop the queue head if any. -/
def pickupStep (s : AppState) : AppState × Option ToolCall :=
  match s.process_queue with
  | [] => (s, none)
  | t :: rest => ({ s with process_queue := rest }, some t)

/-- The three ways the long poll can resolve (main.rs lines 234-238). -/
inductive PollResult where
  | found (t : ToolCall)
  | internalError (msg : String)
  | timedOut
  deriving Repr, DecidableEq

/-- An HTTP body: either the JSON serialization of a `ToolCall` or text. -/
inductive Body where
  | json (t : ToolCall)
  | text (s : String)
  deriving Repr, DecidableEq

/-- The response mapping of `request_handler` (main.rs lines 234-238):
200 + serialized task, 500 + message, or 202 + `"Timeout"`. -/
def requestResponse : PollResult → Nat × Body
  | PollResult.found t => (200, Body.json t)
  | PollResult.internalError e => (500, Body.text ("Error: " ++ e))
  | PollResult.timedOut => (202, Body.text "Timeout")

/-! ### Result submission, `response_handler` (main.rs 241-254) -/

/-- Embeds `response_handler` (main.rs lines 241-254), one critical section: look the
id up in `output_map`; if present, send the payload into the channel (append
to its buffer) and answer 200 with an empty body; if absent, answer 404
`"Unknown ID"`.  The entry is NOT removed here (cleanup is owned by the
bridge caller, main.rs line 124). -/
def responseHandler (s : AppState) (payload : RunCommandResponse) :
    AppState × Nat × String :=
  match mapLookup s.output_map payload.id with
  | some buf =>
      ({ s with output_map := mapInsert s.output_map payload.id (buf ++ [payload.response]) },
        200, "")
  | none => (s, 404, "Unknown ID")

/-! ### Code extraction, `extract_code` (main.rs 209-214) -/

/-- Does `pat` occur as a prefix of `s`?  (Character-wise match.) -/
def matchesAt : List Char → List Char → Bool
  | [], _ => true
  | _ :: _, [] => false
  | p :: ps, c :: cs => p = c && matchesAt ps cs

/-- Embeds `str::find(pat)`: index of the first occurrence of `pat`, if any. -/
def findSub (pat : List Char) : List Char → Option Nat
  | [] => if matchesAt pat [] then some 0 else none
  | c :: rest =>
      if matchesAt pat (c :: rest) then some 0
      else (findSub pat rest).map (· + 1)

/-- Embeds `str::trim()`: strip whitespace from both ends. -/
def trimChars (s : List Char) : List Char :=
  ((s.dropWhile Char.isWhitespace).reverse.dropWhile Char.isWhitespace).reverse

/-- Embeds `extract_code` (main.rs lines 209-214), verbatim: find the opening fence
`"```luau"` at index `start`; find the closing `"```"` in the text after
`start + 7`, at relative index `e`; take `text[start .. start + 7 + e]`
and trim it.  Note the slice starts at `start`, not `start + 7`. -/
def extract_code (text : List Char) : Option (List Char) :=
  (findSub ("```luau".toList) text).bind fun start =>
    (findSub ("```".toList) (text.drop (start + 7))).map fun e =>
      trimChars ((text.drop start).take (7 + e))

/-! ### The orchestrator's dispatch, `gemini_handler` (main.rs 190-206) -/

/-- What `gemini_handler` does once the full text is accumulated (main.rs
lines 190-206): run the extracted code through the bridge, or answer the
text verbatim. -/
inductive GeminiAction where
  | runBridge (code : List Char)
  | respondVerbatim (text : List Char)
  deriving Repr, DecidableEq

/-- The dispatch of main.rs lines 190-206 on the accumulated text. -/
def geminiDispatch (full_text : List Char) : GeminiAction :=
  match extract_code full_text with
  | some code => GeminiAction.runBridge code
  | none => GeminiAction.respondVerbatim full_text

/-- The orchestrator step on the dispatcher state: on `runBridge` it enters
the bridge (whose enqueue is `runRobloxToolStart` with a fresh id and the
response is pending the await); on `respondVerbatim` the state is untouched
and the response is `200` with the accumulated text. -/
def geminiStep (s : AppState) (full_text : List Char) (freshId : Nat) :
    AppState × Option (Nat × List Char) :=
  match geminiDispatch full_text with
  | GeminiAction.runBridge code =>
      (runRobloxToolStart s (String.mk code) freshId, none)
  | GeminiAction.respondVerbatim t => (s, some (200, t))

/-! ### Traces of dispatcher operations -/

/-- One dispatcher operation, each a single critical section of the source. -/
inductive Op where
  | enqueue (args : String) (id : Nat)
  | pickup
  | respond (payload : RunCommandResponse)
  | finish (id : Nat)
  deriving Repr, DecidableEq

/-- Execute one operation; a pickup also reports the item it popped. -/
def execOp (s : AppState) : Op → AppState × Option ToolCall
  | Op.enqueue args id => (runRobloxToolStart s args id, none)
  | Op.pickup => pickupStep s
  | Op.respond p => ((responseHandler s p).1, none)
  | Op.finish id =>
      match runRobloxToolFinish s id with
      | some (s', _) => (s', none)
      | none => (s, none)

/-- Run a sequence of operations, collecting the picked-up items in order. -/
def runOps (s : AppState) : List Op → AppState × List ToolCall
  | [] => (s, [])
  | op :: ops =>
      let r := execOp s op
      let rest := runOps r.1 ops
      (rest.1, r.2.toList ++ rest.2)

/-- The work items a sequence of operations enqueues, in order. -/
def enqueuedOf : List Op → List ToolCall
  | [] => []
  | Op.enqueue args id :: ops => ⟨args, some id⟩ :: enqueuedOf ops
  | _ :: ops => enqueuedOf ops

/-- No torn state: every item sitting in the queue has a correlation entry. -/
def queueBacked (s : AppState) : Prop :=
  ∀ t ∈ s.process_queue, ∀ i, t.id = some i → mapLookup s.output_map i ≠ none

/-! ### Map lemmas -/

theorem mapLookup_insert (m : List (Nat × List String)) (k : Nat) (v : List String)
    (j : Nat) :
    mapLookup (mapInsert m k v) j = if k = j then some v else mapLookup m j := rfl

theorem mapLookup_remove (m : List (Nat × List String)) (k j : Nat) :
    mapLookup (mapRemove m k) j = if j = k then none else mapLookup m j := by
  induction m with
  | nil => by_cases h : j = k <;> simp [mapRemove, mapLookup, h]
  | cons p rest ih =>
      obtain ⟨a, b⟩ := p
      by_cases hak : a = k <;> by_cases haj : a = j <;>
        simp [mapRemove, List.filter_cons, mapLookup, hak, haj] at ih ⊢ <;>
        simp_all [mapRemove, mapLookup]

/-! ### Frame lemmas for the queue -/

theorem responseHandler_queue (s : AppState) (p : RunCommandResponse) :
    (responseHandler s p).1.process_queue = s.process_queue := by
  cases h : mapLookup s.output_map p.id <;> simp [responseHandler, h]

theorem finish_queue (s : AppState) (id : Nat) (s' : AppState)
    (r : Except BridgeError String)
    (h : runRobloxToolFinish s id = some (s', r)) :
    s'.process_queue = s.process_queue := by
  rcases hm : mapLookup s.output_map id with _ | (_ | ⟨v, rest⟩) <;>
    simp [runRobloxToolFinish, hm] at h
  · obtain ⟨h1, h2⟩ := h
    rw [← h1]
  · obtain ⟨h1, h2⟩ := h
    rw [← h1]

theorem pickupStep_map (s : AppState) : (pickupStep s).1.output_map = s.output_map := by
  obtain ⟨q, m, c⟩ := s
  cases q <;> rfl

/-! ### Trace lemmas -/

theorem enqueuedOf_cons (op : Op) (ops : List Op) :
    enqueuedOf (op :: ops) = enqueuedOf [op] ++ enqueuedOf ops := by
  cases op <;> simp [enqueuedOf]

theorem execOp_queue (s : AppState) (op : Op) :
    (execOp s op).2.toList ++ (execOp s op).1.process_queue
      = s.process_queue ++ enqueuedOf [op] := by
  cases op with
  | enqueue args id => simp [execOp, runRobloxToolStart, enqueuedOf]
  | pickup =>
      obtain ⟨q, m, c⟩ := s
      cases q <;> simp [execOp, pickupStep, enqueuedOf]
  | respond p => simp [execOp, enqueuedOf, responseHandler_queue]
  | finish id =>
      rcases hf : runRobloxToolFinish s id with _ | ⟨s', r⟩ <;>
        simp [execOp, hf, enqueuedOf]
      exact finish_queue s id s' r hf

theorem runOps_queue_append (ops : List Op) :
    ∀ s : AppState, (runOps s ops).2 ++ (runOps s ops).1.process_queue
      = s.process_queue ++ enqueuedOf ops := by
  induction ops with
  | nil => intro s; simp [runOps, enqueuedOf]
  | cons op ops ih =>
      intro s
      have hstep := execOp_queue s op
      calc (runOps s (op :: ops)).2 ++ (runOps s (op :: ops)).1.process_queue
          = (execOp s op).2.toList ++
              ((runOps (execOp s op).1 ops).2 ++
                (runOps (execOp s op).1 ops).1.process_queue) := by
            simp [runOps, List.append_assoc]
        _ = (execOp s op).2.toList ++ ((execOp s op).1.process_queue ++ enqueuedOf ops) := by
            rw [ih]
        _ = ((execOp s op).2.toList ++ (execOp s op).1.process_queue) ++ enqueuedOf ops := by
            rw [List.append_assoc]
        _ = (s.process_queue ++ enqueuedOf [op]) ++ enqueuedOf ops := by rw [hstep]
        _ = s.process_queue ++ enqueuedOf (op :: ops) := by
            rw [List.append_assoc, ← enqueuedOf_cons]

/-! ### Claim theorems -/

/-- C1: for every sequence of dispatcher operations started from the fresh
state, the items returned by long-poll pickups, in order, followed by the
items still queued, are exactly the enqueued items in enqueue order; in
particular the pickup outputs are a prefix of the enqueue order — strict
FIFO, no reordering. -/
theorem fifo_pickup_order (ops : List Op) :
    (runOps AppState.new ops).2 ++ (runOps AppState.new ops).1.process_queue
      = enqueuedOf ops ∧
    (runOps AppState.new ops).2 <+: enqueuedOf ops := by
  have h := runOps_queue_append ops AppState.new
  simp [AppState.new] at h
  exact ⟨h, ⟨(runOps AppState.new ops).1.process_queue, h⟩⟩

/-- C2: evaluating `extract_code` on text whose fenced block wraps
`return 1` shows that the extracted string still carries the opening fence
and the language tag (the slice in main.rs line 211 begins at `start`, the
index of the opening fence, instead of `start + 7`), so the `"run code"`
argument routed to the bridge is not the bare block content `return 1`. -/
theorem extract_code_keeps_opening_fence :
    extract_code ("```luau\nreturn 1\n```".toList)
      = some ("```luau\nreturn 1".toList) ∧
    ("```luau\nreturn 1".toList ≠ "return 1".toList) := by
  constructor
  · decide
  · decide

/-- C3: whenever the bridge's completion resolves, if the channel was closed
without a value (in Rust the sender is owned solely by the `output_map`
entry, so a closed channel means the entry is gone) the call fails with the
`ChannelClosed` error; and in every completed case — value received or
failure — the correlation table afterwards has no entry for the
identifier, so no entry leaks. -/
theorem channel_closed_no_leak (s : AppState) (id : Nat) (s' : AppState)
    (r : Except BridgeError String)
    (h : runRobloxToolFinish s id = some (s', r)) :
    (mapLookup s.output_map id = none → r = Except.error BridgeError.channelClosed) ∧
    mapLookup s'.output_map id = none := by
  rcases hm : mapLookup s.output_map id with _ | (_ | ⟨v, rest⟩) <;>
    simp [runRobloxToolFinish, hm] at h
  · obtain ⟨h1, h2⟩ := h
    subst h1
    exact ⟨fun _ => h2.symm, hm⟩
  · obtain ⟨h1, h2⟩ := h
    subst h1
    refine ⟨fun hc => absurd hc (by simp), ?_⟩
    simp [mapLookup_remove]

/-- Witness for C3 at the closed-channel state: the fresh dispatcher state
has no entry for identifier 9, so the completion resolves at once with the
`ChannelClosed` error and the table still has no entry for 9. -/
theorem channel_closed_no_leak_w :
    (mapLookup AppState.new.output_map 9 = none →
      (Except.error BridgeError.channelClosed : Except BridgeError String)
        = Except.error BridgeError.channelClosed) ∧
    mapLookup AppState.new.output_map 9 = none :=
  channel_closed_no_leak AppState.new 9 AppState.new
    (Except.error BridgeError.channelClosed) rfl

theorem responseHandler_of_some (s : AppState) (p : RunCommandResponse)
    (buf : List String) (h : mapLookup s.output_map p.id = some buf) :
    responseHandler s p
      = ({ s with output_map := mapInsert s.output_map p.id (buf ++ [p.response]) },
          200, "") := by
  simp [responseHandler, h]

theorem responseHandler_of_none (s : AppState) (p : RunCommandResponse)
    (h : mapLookup s.output_map p.id = none) :
    responseHandler s p = (s, 404, "Unknown ID") := by
  simp [responseHandler, h]

/-- Counterexample to C4's second half: in a state holding a correlation
entry for identifier 0, two successive result submissions for 0 BOTH answer
HTTP 200, because `response_handler` never removes the entry (removal is
done only by the bridge caller, main.rs line 124) — so submitting twice for
the same identifier can succeed twice, not at most once. -/
theorem double_submission_both_succeed :
    ((responseHandler ⟨[], [(0, [])], 0⟩ ⟨"a", 0⟩).2.1 = 200) ∧
    ((responseHandler (responseHandler ⟨[], [(0, [])], 0⟩ ⟨"a", 0⟩).1 ⟨"b", 0⟩).2.1
      = 200) := by
  constructor
  · decide
  · decide

/-- C4 (amended): a result submission for identifier `i` answers HTTP 200
exactly when a correlation entry for `i` exists at the time of the call,
and otherwise answers HTTP 404 with `"Unknown ID"`; and since a submission
leaves the entry in place, a second submission for the same identifier
while the first one succeeded (and the entry has not been removed by the
bridge) also succeeds. -/
theorem submission_success_iff_entry (s : AppState) (p q : RunCommandResponse)
    (hpq : q.id = p.id) :
    ((responseHandler s p).2.1 = 200 ↔ mapLookup s.output_map p.id ≠ none) ∧
    ((responseHandler s p).2 = (404, "Unknown ID") ↔
      mapLookup s.output_map p.id = none) ∧
    ((responseHandler s p).2.1 = 200 →
      (responseHandler (responseHandler s p).1 q).2.1 = 200) := by
  rcases hm : mapLookup s.output_map p.id with _ | buf
  · simp [responseHandler, hm]
  · refine ⟨by simp [responseHandler, hm], by simp [responseHandler, hm], fun _ => ?_⟩
    have hl : mapLookup (responseHandler s p).1.output_map q.id
        = some (buf ++ [p.response]) := by
      simp [responseHandler, hm, mapInsert, mapLookup, hpq]
    rw [responseHandler_of_some _ _ _ hl]

/-- Witness for C4 (amended) at a state with an entry for identifier 3 and
two submissions carrying payloads `a` and `b`. -/
theorem submission_success_iff_entry_w :
    (((responseHandler ⟨[], [(3, [])], 0⟩ ⟨"a", 3⟩).2.1 = 200) ↔
      mapLookup [(3, [])] 3 ≠ none) ∧
    (((responseHandler ⟨[], [(3, [])], 0⟩ ⟨"a", 3⟩).2 = (404, "Unknown ID")) ↔
      mapLookup [(3, [])] 3 = none) ∧
    ((responseHandler ⟨[], [(3, [])], 0⟩ ⟨"a", 3⟩).2.1 = 200 →
      (responseHandler (responseHandler ⟨[], [(3, [])], 0⟩ ⟨"a", 3⟩).1 ⟨"b", 3⟩).2.1
        = 200) :=
  submission_success_iff_entry ⟨[], [(3, [])], 0⟩ ⟨"a", 3⟩ ⟨"b", 3⟩ rfl

/-- C5: a bridge call that enqueues identifier `id` (pushing its work item
and registering its channel), followed by a worker pickup and a result
submission carrying payload `p` for `id`, completes with exactly the string
`p`, unmodified. -/
theorem bridge_returns_payload (s : AppState) (args p : String) (id : Nat) :
    (runRobloxToolFinish
        (responseHandler (pickupStep (runRobloxToolStart s args id)).1 ⟨p, id⟩).1
        id).map Prod.snd
      = some (Except.ok p) := by
  have hl : mapLookup (pickupStep (runRobloxToolStart s args id)).1.output_map id
      = some [] := by
    rw [pickupStep_map]
    simp [runRobloxToolStart, mapInsert, mapLookup]
  rw [responseHandler_of_some _ _ _ hl]
  simp [runRobloxToolFinish, mapInsert, mapLookup]

/-- Counterexample to C6 as stated: the pickup timeout outcome carries the
body `Timeout` (main.rs line 237), not an empty body. -/
theorem timeout_body_is_not_empty :
    (requestResponse PollResult.timedOut).2 = Body.text "Timeout" ∧
    (requestResponse PollResult.timedOut).2 ≠ Body.text "" := by
  constructor
  · rfl
  · decide

/-- C6 (amended): while the queue is empty a poll pass pops nothing and
leaves the state unchanged, so a queue empty for the full long-poll bound
resolves through the timeout branch, answered as HTTP 202 with the body
`Timeout` — a status distinct from both the 200 success outcome and the 500
internal-error outcome, not an error. -/
theorem empty_queue_times_out (s : AppState) (t : ToolCall) (e : String)
    (h : s.process_queue = []) :
    pickupStep s = (s, none) ∧
    requestResponse PollResult.timedOut = (202, Body.text "Timeout") ∧
    (requestResponse (PollResult.found t)).1 = 200 ∧
    (requestResponse (PollResult.internalError e)).1 = 500 ∧
    (202 : Nat) ≠ 200 ∧ (202 : Nat) ≠ 500 := by
  obtain ⟨q, m, c⟩ := s
  cases h
  exact ⟨rfl, rfl, rfl, rfl, by decide, by decide⟩

/-- Witness for C6 (amended) at the fresh, empty dispatcher state. -/
theorem empty_queue_times_out_w :
    pickupStep AppState.new = (AppState.new, none) ∧
    requestResponse PollResult.timedOut = (202, Body.text "Timeout") ∧
    (requestResponse (PollResult.found ⟨"x", none⟩)).1 = 200 ∧
    (requestResponse (PollResult.internalError "boom")).1 = 500 ∧
    (202 : Nat) ≠ 200 ∧ (202 : Nat) ≠ 500 :=
  empty_queue_times_out AppState.new ⟨"x", none⟩ "boom" rfl

/-- C7: when the accumulated text holds no fenced `luau` block, the
orchestrator's dispatch answers the text verbatim with status 200 and never
enters the bridge: the dispatcher state is untouched, so nothing is
enqueued and no correlation entry is created. -/
theorem no_fence_returns_verbatim (s : AppState) (text : List Char) (fresh : Nat)
    (h : extract_code text = none) :
    geminiDispatch text = GeminiAction.respondVerbatim text ∧
    geminiStep s text fresh = (s, some (200, text)) := by
  have hd : geminiDispatch text = GeminiAction.respondVerbatim text := by
    simp [geminiDispatch, h]
  exact ⟨hd, by simp [geminiStep, hd]⟩

/-- Witness for C7 on plain text with no fence. -/
theorem no_fence_returns_verbatim_w :
    geminiDispatch ("hello there".toList)
      = GeminiAction.respondVerbatim ("hello there".toList) ∧
    geminiStep AppState.new ("hello there".toList) 0
      = (AppState.new, some (200, "hello there".toList)) :=
  no_fence_returns_verbatim AppState.new ("hello there".toList) 0 (by decide)

/-- C8: the bridge's enqueue is one critical section (one atomic transition
of the model, matching the single lock scope of main.rs lines 110-120): its
single post-state already carries the pushed work item at the queue tail,
the correlation entry for the fresh identifier, and the bumped notifier —
and it preserves the no-torn-state invariant that every queued item has a
correlation entry, so no observer sees an item without its entry. -/
theorem enqueue_atomic (s : AppState) (args : String) (id : Nat)
    (h : queueBacked s) :
    (runRobloxToolStart s args id).process_queue
      = s.process_queue ++ [⟨args, some id⟩] ∧
    mapLookup (runRobloxToolStart s args id).output_map id = some [] ∧
    (runRobloxToolStart s args id).trigger_count = s.trigger_count + 1 ∧
    queueBacked (runRobloxToolStart s args id) := by
  refine ⟨rfl, by simp [runRobloxToolStart, mapInsert, mapLookup], rfl, ?_⟩
  intro t ht i hi
  have ht' : t ∈ s.process_queue ++ [(⟨args, some id⟩ : ToolCall)] := ht
  have hgoal : mapLookup (mapInsert s.output_map id []) i ≠ none := by
    rcases List.mem_append.mp ht' with hmem | hmem
    · by_cases hid : id = i
      · simp [mapInsert, mapLookup, hid]
      · simp only [mapInsert, mapLookup, if_neg hid]
        exact h t hmem i hi
    · have : t = (⟨args, some id⟩ : ToolCall) := List.mem_singleton.mp hmem
      subst this
      have : id = i := by
        have := hi
        simp at this
        exact this
      simp [mapInsert, mapLookup, this]
  exact hgoal

/-- Witness for C8 from the fresh dispatcher state, which trivially
satisfies the no-torn-state invariant. -/
theorem enqueue_atomic_w :
    queueBacked (runRobloxToolStart AppState.new "print(1)" 7) :=
  (enqueue_atomic AppState.new "print(1)" 7
    (by intro t ht i hi; simp [AppState.new] at ht)).2.2.2

/-- C9: the long-poll pickup is the only operation that removes items from
the queue: a result submission leaves the queue untouched, a bridge
completion leaves the queue untouched, the bridge's enqueue only appends a
single item to the tail, and a pickup pass pops exactly the head (nothing
when the queue is empty). -/
theorem pickup_only_pops (s : AppState) (p : RunCommandResponse) (args : String)
    (id : Nat) :
    (responseHandler s p).1.process_queue = s.process_queue ∧
    (∀ s' r, runRobloxToolFinish s id = some (s', r) →
      s'.process_queue = s.process_queue) ∧
    (runRobloxToolStart s args id).process_queue
      = s.process_queue ++ [⟨args, some id⟩] ∧
    (s.process_queue = [] → pickupStep s = (s, none)) ∧
    (∀ t rest, s.process_queue = t :: rest →
      pickupStep s = ({ s with process_queue := rest }, some t)) := by
  refine ⟨responseHandler_queue s p, fun s' r h => finish_queue s id s' r h, rfl,
    ?_, ?_⟩
  · intro h
    obtain ⟨q, m, c⟩ := s
    cases h
    rfl
  · intro t rest h
    obtain ⟨q, m, c⟩ := s
    cases h
    rfl

/-- Witness for C9: on a state whose queue holds one item, a pickup pass
pops exactly that item and leaves the rest of the state untouched. -/
theorem pickup_only_pops_w :
    pickupStep ⟨[⟨"a", some 5⟩], [(5, [])], 1⟩
      = (⟨[], [(5, [])], 1⟩, some ⟨"a", some 5⟩) :=
  (pickup_only_pops ⟨[⟨"a", some 5⟩], [(5, [])], 1⟩ ⟨"r", 0⟩ "x" 0).2.2.2.2
    ⟨"a", some 5⟩ [] rfl

/-- C10: when the text holds an opening `luau` fence at some index but no
closing fence after it, `extract_code` returns `none`, so the orchestrator
dispatches the text verbatim and never enqueues work for the unterminated
block. -/
theorem unterminated_fence_extracts_none (text : List Char) (start : Nat)
    (h1 : findSub ("```luau".toList) text = some start)
    (h2 : findSub ("```".toList) (text.drop (start + 7)) = none) :
    extract_code text = none ∧
    geminiDispatch text = GeminiAction.respondVerbatim text := by
  have he : extract_code text = none := by
    have hstep : extract_code text
        = (findSub ("```".toList) (text.drop (start + 7))).map
            (fun e => trimChars ((text.drop start).take (7 + e))) := by
      unfold extract_code
      rw [h1]
      rfl
    rw [hstep, h2]
    rfl
  exact ⟨he, by simp [geminiDispatch, he]⟩

/-- Witness for C10 on text whose `luau` fence is never closed. -/
theorem unterminated_fence_extracts_none_w :
    extract_code ("x ```luau return 2".toList) = none ∧
    geminiDispatch ("x ```luau return 2".toList)
      = GeminiAction.respondVerbatim ("x ```luau return 2".toList) :=
  unterminated_fence_extracts_none ("x ```luau return 2".toList) 2
    (by decide) (by decide)
